import Mathlib

/-!
A verification development for the live video acquisition subsystem of the
FeederGuard ("Who's That?") appliance: the connection negotiator, capture
loop, frame store, MJPEG emitter and placeholder encoder of `src/camera.py`,
together with the runtime-configuration update of `src/config.py`.

The Python code is shallowly embedded.  `cv2.VideoCapture` is modelled by an
environment (`CamWorld`) saying which candidate URLs open and which deliver a
first frame; `threading.Lock`-protected critical sections are modelled as
atomic operations, so concurrent executions are arbitrary interleavings of
those atomic operations; NumPy's `ndarray.copy` is modelled by allocating a
fresh object identity from a monotone counter.  `cv2.imencode` and
`cv2.putText` (external library calls) are modelled abstractly: an image is a
record of its dimensions, background colour and the text draws performed on
it, and JPEG encoding is an injective serialisation of that record framed by
the JPEG SOI/EOI markers.
-/

namespace FeederGuard

/-- Camera settings of `config.py` as seen by the negotiator:
`CAMERA_IP`, `CAMERA_USER`, `CAMERA_PASSWORD`, `CAMERA_URL_OVERRIDE`. -/
structure Config where
  cameraIp : String
  cameraUser : String
  cameraPassword : String
  cameraUrlOverride : String
  deriving Repr, DecidableEq

/-- The defaults of `config.py` when the corresponding environment
variables are unset. -/
def defaultConfig : Config :=
  { cameraIp := "192.168.68.55"
    cameraUser := "FeederGuard"
    cameraPassword := ""
    cameraUrlOverride := "" }

/-- Constant `RTSP_PATHS` from `config.py`: RTSP paths to try, in order. -/
def RTSP_PATHS : List String :=
  ["/stream1", "/stream2", "/live", "/h264", "/cam/realmonitor", "/"]

/-- Constant `HTTP_PATHS` from `config.py`: HTTP MJPEG paths to try, in order. -/
def HTTP_PATHS : List String :=
  ["/video", "/mjpeg", "/stream", "/cam.mjpg", "/snapshot.jpg"]

/-- The RTSP URL built in `CameraThread._connect`:
`rtsp://{user}:{password}@{ip}:554{path}`. -/
def rtspUrl (cfg : Config) (path : String) : String :=
  "rtsp://" ++ cfg.cameraUser ++ ":" ++ cfg.cameraPassword ++ "@"
    ++ cfg.cameraIp ++ ":554" ++ path

/-- The HTTP URL built in `CameraThread._connect`:
`http://{user}:{password}@{ip}{path}`. -/
def httpUrl (cfg : Config) (path : String) : String :=
  "http://" ++ cfg.cameraUser ++ ":" ++ cfg.cameraPassword ++ "@"
    ++ cfg.cameraIp ++ path

/-- The environment of `cv2.VideoCapture`: for each URL, whether
`VideoCapture(url).isOpened()` holds and whether the first `read()` on the
freshly opened capture succeeds. -/
structure CamWorld where
  opens : String → Bool
  readsOk : String → Bool

/-- A candidate is live when it both opens and delivers one successfully
decoded frame on its first read. -/
def liveUrl (w : CamWorld) (u : String) : Bool :=
  w.opens u && w.readsOk u

/-- The full candidate list of `_connect` in the order the code tries it:
the override URL first (when non-empty), then every RTSP path, then every
HTTP path. -/
def candidateUrls (cfg : Config) : List String :=
  (if cfg.cameraUrlOverride ≠ "" then [cfg.cameraUrlOverride] else [])
    ++ RTSP_PATHS.map (rtspUrl cfg) ++ HTTP_PATHS.map (httpUrl cfg)

/-- One `for path in ...` loop of `_connect` over already-built URLs: open
the capture; if opened, read once; on a successful read stop with that URL,
otherwise release the capture and move to the next candidate.  Returns the
list of candidates actually tried (in order) and the winning URL, if any. -/
def tryLoop (w : CamWorld) : List String → List String × Option String
  | [] => ([], none)
  | u :: rest =>
    if w.opens u then
      if w.readsOk u then ([u], some u)
      else (u :: (tryLoop w rest).1, (tryLoop w rest).2)
    else (u :: (tryLoop w rest).1, (tryLoop w rest).2)

/-- The override branch of `_connect` tries the single override candidate
(when non-empty) with the same open-then-read pattern as the loops. -/
def overrideList (cfg : Config) : List String :=
  if cfg.cameraUrlOverride ≠ "" then [cfg.cameraUrlOverride] else []

/-- Result of `_connect`: its return value, the fields of `self` it sets
(`_cam`, `_connected`, `_last_error`), and the trace of candidates tried. -/
structure ConnectOutcome where
  ok : Bool
  cam : Option String
  connected : Bool
  lastError : Option String
  attempts : List String
  deriving Repr, DecidableEq

/-- The success path of `_connect`: set `CAP_PROP_BUFFERSIZE` to 1 on the
handle (not modelled further), `_connected = True`, `_last_error = None`,
return `True`. -/
def connSuccess (u : String) (tr : List String) : ConnectOutcome :=
  { ok := true, cam := some u, connected := true, lastError := none
    attempts := tr }

/-- Method `CameraThread._connect`: try the override URL (when non-empty), then the
RTSP candidates, then the HTTP candidates; succeed at the first candidate
that opens and whose first read succeeds; when every candidate is exhausted,
set `_connected = False` and record `"Cannot connect to camera at {ip}"` as
`_last_error`. -/
def connect (w : CamWorld) (cfg : Config) : ConnectOutcome :=
  let t0 := tryLoop w (overrideList cfg)
  match t0.2 with
  | some u => connSuccess u t0.1
  | none =>
    let t1 := tryLoop w (RTSP_PATHS.map (rtspUrl cfg))
    match t1.2 with
    | some u => connSuccess u (t0.1 ++ t1.1)
    | none =>
      let t2 := tryLoop w (HTTP_PATHS.map (httpUrl cfg))
      match t2.2 with
      | some u => connSuccess u (t0.1 ++ t1.1 ++ t2.1)
      | none =>
        { ok := false, cam := none, connected := false
          lastError := some ("Cannot connect to camera at " ++ cfg.cameraIp)
          attempts := t0.1 ++ t1.1 ++ t2.1 }

theorem tryLoop_snd (w : CamWorld) :
    ∀ l : List String, (tryLoop w l).2 = l.find? (liveUrl w)
  | [] => rfl
  | u :: rest => by
    simp only [tryLoop, List.find?, liveUrl]
    cases hop : w.opens u <;> cases hrd : w.readsOk u <;>
      simp [tryLoop_snd w rest]

theorem tryLoop_fst_take (w : CamWorld) :
    ∀ l : List String, ∃ k, (tryLoop w l).1 = l.take k
  | [] => ⟨0, rfl⟩
  | u :: rest => by
    obtain ⟨k, hk⟩ := tryLoop_fst_take w rest
    by_cases hop : w.opens u
    · by_cases hrd : w.readsOk u
      · exact ⟨1, by simp [tryLoop, hop, hrd]⟩
      · exact ⟨k + 1, by simp [tryLoop, hop, hrd, hk]⟩
    · exact ⟨k + 1, by simp [tryLoop, hop, hk]⟩

theorem tryLoop_fst_of_none (w : CamWorld) :
    ∀ l : List String, (tryLoop w l).2 = none → (tryLoop w l).1 = l
  | [] => fun _ => rfl
  | u :: rest => by
    cases hop : w.opens u
    · simp only [tryLoop, hop, Bool.false_eq_true, if_false]
      intro h
      simp only [tryLoop_fst_of_none w rest h]
    · cases hrd : w.readsOk u
      · simp only [tryLoop, hop, hrd, Bool.false_eq_true, if_true, if_false]
        intro h
        simp only [tryLoop_fst_of_none w rest h]
      · simp [tryLoop, hop, hrd]

theorem tryLoop_getLast (w : CamWorld) :
    ∀ l : List String, ∀ u, (tryLoop w l).2 = some u →
      (tryLoop w l).1.getLast? = some u
  | [] => by simp [tryLoop]
  | v :: rest => by
    intro u
    cases hop : w.opens v
    · simp only [tryLoop, hop, Bool.false_eq_true, if_false]
      intro h
      rcases hr : (tryLoop w rest).1 with _ | ⟨a, tl⟩
      · have := tryLoop_getLast w rest u h
        rw [hr] at this; simp at this
      · rw [List.getLast?_cons_cons]
        have := tryLoop_getLast w rest u h
        rw [hr] at this; exact this
    · cases hrd : w.readsOk v
      · simp only [tryLoop, hop, hrd, Bool.false_eq_true, if_true, if_false]
        intro h
        rcases hr : (tryLoop w rest).1 with _ | ⟨a, tl⟩
        · have := tryLoop_getLast w rest u h
          rw [hr] at this; simp at this
        · rw [List.getLast?_cons_cons]
          have := tryLoop_getLast w rest u h
          rw [hr] at this; exact this
      · simp [tryLoop, hop, hrd]

theorem tryLoop_dropLast_not_live (w : CamWorld) :
    ∀ l : List String, ∀ u ∈ (tryLoop w l).1.dropLast, liveUrl w u = false
  | [] => by simp [tryLoop]
  | v :: rest => by
    intro u
    cases hop : w.opens v
    · simp only [tryLoop, hop, Bool.false_eq_true, if_false]
      rcases hr : (tryLoop w rest).1 with _ | ⟨a, tl⟩
      · simp
      · rw [List.dropLast_cons₂]
        intro hmem
        rcases List.mem_cons.mp hmem with h | h
        · subst h; simp [liveUrl, hop]
        · exact tryLoop_dropLast_not_live w rest u (by rw [hr]; exact h)
    · cases hrd : w.readsOk v
      · simp only [tryLoop, hop, hrd, Bool.false_eq_true, if_true, if_false]
        rcases hr : (tryLoop w rest).1 with _ | ⟨a, tl⟩
        · simp
        · rw [List.dropLast_cons₂]
          intro hmem
          rcases List.mem_cons.mp hmem with h | h
          · subst h; simp [liveUrl, hop, hrd]
          · exact tryLoop_dropLast_not_live w rest u (by rw [hr]; exact h)
      · simp [tryLoop, hop, hrd]

theorem take_first_exists {α : Type} (b c : List α) (k : Nat) :
    ∃ m, b.take k = (b ++ c).take m := by
  refine ⟨min k b.length, ?_⟩
  rw [List.take_append_of_le_length (Nat.min_le_right k b.length),
    List.take_eq_take]
  omega

theorem take_middle_exists {α : Type} (a b c : List α) (k : Nat) :
    ∃ m, a ++ b.take k = (a ++ b ++ c).take m := by
  refine ⟨a.length + min k b.length, ?_⟩
  rw [List.append_assoc, List.take_append]
  congr 1
  rw [List.take_append_of_le_length (Nat.min_le_right k b.length),
    List.take_eq_take]
  omega

theorem take_end_exists {α : Type} (a b : List α) (k : Nat) :
    ∃ m, a ++ b.take k = (a ++ b).take m := by
  refine ⟨a.length + min k b.length, ?_⟩
  rw [List.take_append]
  congr 1
  rw [List.take_eq_take]
  omega

/-- Full characterisation of `_connect` in terms of the priority candidate
list: the selected handle is the first live candidate, success/connected
flags and `last_error` follow, and the trace of attempts is an order-true
prefix of the candidate list in which only the final (winning) attempt is
live. -/
theorem connect_spec (w : CamWorld) (cfg : Config) :
    (connect w cfg).cam = (candidateUrls cfg).find? (liveUrl w)
    ∧ (connect w cfg).ok = ((candidateUrls cfg).find? (liveUrl w)).isSome
    ∧ (connect w cfg).connected = (connect w cfg).ok
    ∧ (connect w cfg).lastError =
        (if (connect w cfg).ok then none
         else some ("Cannot connect to camera at " ++ cfg.cameraIp))
    ∧ (∃ k, (connect w cfg).attempts = (candidateUrls cfg).take k)
    ∧ (∀ u ∈ (connect w cfg).attempts.dropLast, liveUrl w u = false)
    ∧ (∀ u, (connect w cfg).cam = some u →
        (connect w cfg).attempts.getLast? = some u)
    ∧ ((connect w cfg).cam = none →
        (connect w cfg).attempts = candidateUrls cfg) := by
  have hcand : candidateUrls cfg
      = overrideList cfg ++ RTSP_PATHS.map (rtspUrl cfg)
        ++ HTTP_PATHS.map (httpUrl cfg) := rfl
  have s0 := tryLoop_snd w (overrideList cfg)
  have s1 := tryLoop_snd w (RTSP_PATHS.map (rtspUrl cfg))
  have s2 := tryLoop_snd w (HTTP_PATHS.map (httpUrl cfg))
  cases heq0 : (tryLoop w (overrideList cfg)).2 with
  | some u =>
    have hf0 : (overrideList cfg).find? (liveUrl w) = some u :=
      s0.symm.trans heq0
    have hfind : (candidateUrls cfg).find? (liveUrl w) = some u := by
      rw [hcand]
      simp [List.find?_append, hf0]
    obtain ⟨k, hk⟩ := tryLoop_fst_take w (overrideList cfg)
    simp only [connect, heq0]
    refine ⟨by simp [connSuccess, hfind], by simp [connSuccess, hfind],
      rfl, by simp [connSuccess], ?_, ?_, ?_, ?_⟩
    · obtain ⟨m, hm⟩ :=
        take_first_exists (overrideList cfg)
          (RTSP_PATHS.map (rtspUrl cfg) ++ HTTP_PATHS.map (httpUrl cfg)) k
      refine ⟨m, ?_⟩
      rw [hcand, List.append_assoc]
      simpa [connSuccess, hk] using hm
    · intro x hx
      exact tryLoop_dropLast_not_live w (overrideList cfg) x hx
    · intro x hx
      simp only [connSuccess, Option.some.injEq] at hx
      subst hx
      exact tryLoop_getLast w (overrideList cfg) u heq0
    · intro hx
      simp [connSuccess] at hx
  | none =>
    have hf0 : (overrideList cfg).find? (liveUrl w) = none :=
      s0.symm.trans heq0
    have htr0 : (tryLoop w (overrideList cfg)).1 = overrideList cfg :=
      tryLoop_fst_of_none w _ heq0
    have hlive0 : ∀ x ∈ overrideList cfg, liveUrl w x = false := by
      intro x hx
      have := List.find?_eq_none.mp hf0 x hx
      simpa using this
    cases heq1 : (tryLoop w (RTSP_PATHS.map (rtspUrl cfg))).2 with
    | some u =>
      have hf1 : (RTSP_PATHS.map (rtspUrl cfg)).find? (liveUrl w) = some u :=
        s1.symm.trans heq1
      have hfind : (candidateUrls cfg).find? (liveUrl w) = some u := by
        rw [hcand]
        simp [List.find?_append, hf0, hf1]
      obtain ⟨k, hk⟩ := tryLoop_fst_take w (RTSP_PATHS.map (rtspUrl cfg))
      have hne1 : (tryLoop w (RTSP_PATHS.map (rtspUrl cfg))).1 ≠ [] := by
        intro hnil
        have := tryLoop_getLast w _ u heq1
        rw [hnil] at this
        simp at this
      simp only [connect, heq0, heq1]
      refine ⟨by simp [connSuccess, hfind], by simp [connSuccess, hfind],
        rfl, by simp [connSuccess], ?_, ?_, ?_, ?_⟩
      · obtain ⟨m, hm⟩ :=
          take_middle_exists (overrideList cfg)
            (RTSP_PATHS.map (rtspUrl cfg)) (HTTP_PATHS.map (httpUrl cfg)) k
        refine ⟨m, ?_⟩
        rw [hcand]
        simpa [connSuccess, htr0, hk] using hm
      · intro x hx
        simp only [connSuccess, htr0,
          List.dropLast_append_of_ne_nil _ hne1, List.mem_append] at hx
        rcases hx with hx | hx
        · exact hlive0 x hx
        · exact tryLoop_dropLast_not_live w _ x hx
      · intro x hx
        simp only [connSuccess, Option.some.injEq] at hx
        subst hx
        simp only [connSuccess, List.getLast?_append]
        rw [tryLoop_getLast w _ u heq1]
        rfl
      · intro hx
        simp [connSuccess] at hx
    | none =>
      have hf1 : (RTSP_PATHS.map (rtspUrl cfg)).find? (liveUrl w) = none :=
        s1.symm.trans heq1
      have htr1 : (tryLoop w (RTSP_PATHS.map (rtspUrl cfg))).1
          = RTSP_PATHS.map (rtspUrl cfg) :=
        tryLoop_fst_of_none w _ heq1
      have hlive1 : ∀ x ∈ RTSP_PATHS.map (rtspUrl cfg),
          liveUrl w x = false := by
        intro x hx
        have := List.find?_eq_none.mp hf1 x hx
        simpa using this
      cases heq2 : (tryLoop w (HTTP_PATHS.map (httpUrl cfg))).2 with
      | some u =>
        have hf2 : (HTTP_PATHS.map (httpUrl cfg)).find? (liveUrl w)
            = some u := s2.symm.trans heq2
        have hfind : (candidateUrls cfg).find? (liveUrl w) = some u := by
          rw [hcand]
          simp [List.find?_append, hf0, hf1, hf2]
        obtain ⟨k, hk⟩ := tryLoop_fst_take w (HTTP_PATHS.map (httpUrl cfg))
        have hne2 : (tryLoop w (HTTP_PATHS.map (httpUrl cfg))).1 ≠ [] := by
          intro hnil
          have := tryLoop_getLast w _ u heq2
          rw [hnil] at this
          simp at this
        simp only [connect, heq0, heq1, heq2]
        refine ⟨by simp [connSuccess, hfind], by simp [connSuccess, hfind],
          rfl, by simp [connSuccess], ?_, ?_, ?_, ?_⟩
        · obtain ⟨m, hm⟩ :=
            take_end_exists
              (overrideList cfg ++ RTSP_PATHS.map (rtspUrl cfg))
              (HTTP_PATHS.map (httpUrl cfg)) k
          refine ⟨m, ?_⟩
          rw [hcand]
          simpa [connSuccess, htr0, htr1, hk, List.append_assoc] using hm
        · intro x hx
          simp only [connSuccess, htr0, htr1,
            List.dropLast_append_of_ne_nil _ hne2, List.mem_append] at hx
          rcases hx with (hx | hx) | hx
          · exact hlive0 x hx
          · exact hlive1 x hx
          · exact tryLoop_dropLast_not_live w _ x hx
        · intro x hx
          simp only [connSuccess, Option.some.injEq] at hx
          subst hx
          simp only [connSuccess, List.getLast?_append]
          rw [tryLoop_getLast w _ u heq2]
          rfl
        · intro hx
          simp [connSuccess] at hx
      | none =>
        have hf2 : (HTTP_PATHS.map (httpUrl cfg)).find? (liveUrl w)
            = none := s2.symm.trans heq2
        have htr2 : (tryLoop w (HTTP_PATHS.map (httpUrl cfg))).1
            = HTTP_PATHS.map (httpUrl cfg) :=
          tryLoop_fst_of_none w _ heq2
        have hfind : (candidateUrls cfg).find? (liveUrl w) = none := by
          rw [hcand]
          simp [List.find?_append, hf0, hf1, hf2]
        have hatt : (tryLoop w (overrideList cfg)).1
              ++ (tryLoop w (RTSP_PATHS.map (rtspUrl cfg))).1
              ++ (tryLoop w (HTTP_PATHS.map (httpUrl cfg))).1
            = candidateUrls cfg := by
          rw [htr0, htr1, htr2, hcand]
        simp only [connect, heq0, heq1, heq2]
        refine ⟨by simp [hfind], by simp [hfind], by simp, by simp,
          ?_, ?_, ?_, ?_⟩
        · exact ⟨(candidateUrls cfg).length, by
            simp only [hatt, List.take_length]⟩
        · intro x hx
          have hx' : x ∈ candidateUrls cfg := by
            rw [← hatt]
            exact List.dropLast_subset _ hx
          rw [hcand] at hx'
          simp only [List.append_assoc, List.mem_append] at hx'
          rcases hx' with h | h | h
          · exact hlive0 x h
          · exact hlive1 x h
          · have := List.find?_eq_none.mp hf2 x h
            simpa using this
        · intro x hx
          simp at hx
        · intro _
          exact hatt

/-- A NumPy frame held by the store: its pixel data together with an object
identity.  `ndarray.copy()` is modelled as allocating a fresh identity from
the monotone counter `nextId` while keeping the data. -/
structure StoredFrame where
  oid : Nat
  data : List Nat
  deriving Repr, DecidableEq

/-- The fields of `CameraThread` (`__init__`).  `_frame_lock` is modelled by
treating each lock-protected critical section as one atomic operation;
`_thread` is modelled by the number of capture threads spawned so far
(`threads`); `nextId` is the allocator for frame-object identities. -/
structure CameraThread where
  frame : Option StoredFrame
  nextId : Nat
  running : Bool
  threads : Nat
  cam : Option String
  connected : Bool
  lastError : Option String
  deriving Repr, DecidableEq

/-- Constructor `CameraThread.__init__`: no frame, not running, no thread, no capture,
disconnected, no error. -/
def initCameraThread : CameraThread :=
  { frame := none, nextId := 0, running := false, threads := 0
    cam := none, connected := false, lastError := none }

/-- Method `CameraThread.start`: a no-op when already running; otherwise set
`_running` and spawn the capture thread. -/
def start (s : CameraThread) : CameraThread :=
  if s.running then s
  else { s with running := true, threads := s.threads + 1 }

/-- Method `CameraThread.stop`: clear `_running` (the loop observes it and exits,
see `tick_exit_of_not_running`), join the thread, then release `_cam` when
present and set it to `None`. -/
def stop (s : CameraThread) : CameraThread :=
  let s1 : CameraThread := { s with running := false }
  match s1.cam with
  | some _ => { s1 with cam := none }
  | none => s1

/-- The atomic body of the lock-protected publish in `_capture_loop`
(`self._frame = frame.copy()`): store a fresh copy of the frame just read. -/
def publishFrame (s : CameraThread) (d : List Nat) : CameraThread :=
  { s with frame := some { oid := s.nextId, data := d }
           nextId := s.nextId + 1 }

/-- Method `CameraThread.get_frame`: under the frame lock, return `None` when no
frame has been published, else an independent copy (fresh identity, same
data) of the stored frame. -/
def get_frame (s : CameraThread) : Option StoredFrame × CameraThread :=
  match s.frame with
  | some o => (some { oid := s.nextId, data := o.data },
               { s with nextId := s.nextId + 1 })
  | none => (none, s)

/-- Outcome of one `self._cam.read()` in the capture loop. -/
inductive ReadOutcome
  | ok (d : List Nat)
  | fail
  deriving Repr, DecidableEq

/-- What one iteration of `_capture_loop` does besides updating state:
exit the loop, sleep (milliseconds) without publishing, or publish a frame
and then sleep the pacing delay (milliseconds). -/
inductive Action
  | exit
  | sleep (ms : Nat)
  | publishSleep (ms : Nat)
  deriving Repr, DecidableEq

/-- Constant `self._reconnect_interval = 5` seconds (`__init__`). -/
def reconnectInterval : Nat := 5

/-- Copy the fields `_connect` assigned on `self` into the thread state. -/
def applyConnect (s : CameraThread) (c : ConnectOutcome) : CameraThread :=
  { s with connected := c.connected, cam := c.cam, lastError := c.lastError }

/-- The read/publish part of a `_capture_loop` iteration: on a failed read,
clear `_connected`, release and clear `_cam`, and sleep 1 second; on a
successful read, publish a copy of the frame under the lock and sleep
33 ms (~30 fps pacing). -/
def readStep (s : CameraThread) (r : ReadOutcome) : CameraThread × Action :=
  match r with
  | .fail => ({ s with connected := false, cam := none }, .sleep 1000)
  | .ok d => (publishFrame s d, .publishSleep 33)

/-- One iteration of `while self._running` in `_capture_loop`: exit when the
stop flag is clear; when not connected (or no capture), negotiate — on
failure sleep the full reconnect interval and continue; otherwise (connected,
possibly just now) read one frame via `readStep`. -/
def tick (cfg : Config) (w : CamWorld) (r : ReadOutcome) (s : CameraThread) :
    CameraThread × Action :=
  if s.running = false then (s, .exit)
  else if s.connected = false || s.cam.isNone then
    let c := connect w cfg
    if c.ok then readStep (applyConnect s c) r
    else (applyConnect s c, .sleep (reconnectInterval * 1000))
  else readStep s r

/-- ASCII bytes of a string (the multipart literals are pure ASCII). -/
def strBytes (s : String) : List Nat :=
  s.data.map Char.toNat

/-- Model of `cv2.imencode(".jpg", frame, [IMWRITE_JPEG_QUALITY, quality])`
on a raw captured frame: an opaque JPEG byte stream, framed by the JPEG
SOI (0xFF 0xD8) and EOI (0xFF 0xD9) markers, determined by the quality
setting and the pixel data. -/
def imencodeFrame (quality : Nat) (d : List Nat) : List Nat :=
  255 :: 216 :: quality :: d.length :: d ++ [255, 217]

/-- Method `CameraThread.get_frame_jpeg` (default `quality=85`): the latest frame
as JPEG bytes, or `None` when no frame is available. -/
def get_frame_jpeg (s : CameraThread) (quality : Nat) :
    Option (List Nat) × CameraThread :=
  match get_frame s with
  | (none, s1) => (none, s1)
  | (some o, s1) => (some (imencodeFrame quality o.data), s1)

/-- One `cv2.putText` call as observed on the image: the text drawn, its
BGR colour, the font scale (scaled by 10 to stay in `Nat`: the source uses
1.5 and 0.5) and the stroke thickness.  The pixel coordinates computed from
`cv2.getTextSize` are layout internals of the external library and are not
modelled. -/
structure TextDraw where
  text : String
  color : Nat × Nat × Nat
  scale10 : Nat
  thickness : Nat
  deriving Repr, DecidableEq

/-- Model of an OpenCV image buffer: dimensions and channel count of the
`np.zeros((480, 640, 3))` allocation, the fill colour, and the sequence of
text draws performed on it. -/
structure Image where
  height : Nat
  width : Nat
  channels : Nat
  background : Nat × Nat × Nat
  texts : List TextDraw
  deriving Repr, DecidableEq

/-- Calling `cv2.putText(img, ...)` mutates `img` by drawing one more text. -/
def putText (img : Image) (t : TextDraw) : Image :=
  { img with texts := img.texts ++ [t] }

/-- The image built by `CameraThread._get_no_signal_frame`: a 640×480
3-channel buffer filled with dark gray `(40, 40, 40)`, the caption
`"No Signal"` at scale 1.5/thickness 3 in `(100, 100, 100)`, and — exactly
when `self._last_error` is set — the error text at scale 0.5/thickness 1 in
`(80, 80, 80)`. -/
def noSignalImage (lastError : Option String) : Image :=
  let img : Image :=
    { height := 480, width := 640, channels := 3
      background := (40, 40, 40), texts := [] }
  let img := putText img
    { text := "No Signal", color := (100, 100, 100)
      scale10 := 15, thickness := 3 }
  match lastError with
  | some e => putText img
      { text := e, color := (80, 80, 80), scale10 := 5, thickness := 1 }
  | none => img

/-- Length-prefixed serialisation of a string (for the JPEG model). -/
def encStr (s : String) : List Nat :=
  s.length :: s.data.map Char.toNat

/-- Serialisation of one text draw (for the JPEG model). -/
def encText (t : TextDraw) : List Nat :=
  encStr t.text
    ++ [t.color.1, t.color.2.1, t.color.2.2, t.scale10, t.thickness]

/-- Model of `cv2.imencode(".jpg", img)` on a synthesized image: a JPEG
byte stream framed by the SOI and EOI markers whose payload is an injective
serialisation of the image contents. -/
def imencodeImage (img : Image) : List Nat :=
  255 :: 216 :: img.height :: img.width :: img.channels
    :: img.background.1 :: img.background.2.1 :: img.background.2.2
    :: img.texts.length
    :: ((img.texts.map encText).flatten ++ [255, 217])

/-- Parse one length-prefixed string back out of the JPEG model stream. -/
def decStr (l : List Nat) : Option (String × List Nat) :=
  match l with
  | [] => none
  | n :: rest =>
    if n ≤ rest.length then
      some (String.mk ((rest.take n).map Char.ofNat), rest.drop n)
    else none

/-- Parse `n` serialised text draws back out of the JPEG model stream. -/
def decTexts : Nat → List Nat → Option (List TextDraw × List Nat)
  | 0, l => some ([], l)
  | n + 1, l =>
    match decStr l with
    | none => none
    | some (s, rest) =>
      match rest with
      | r :: g :: b :: sc :: th :: rest2 =>
        match decTexts n rest2 with
        | some (ts, rest3) =>
          some ({ text := s, color := (r, g, b), scale10 := sc
                  thickness := th } :: ts, rest3)
        | none => none
      | _ => none

/-- The decoder inverting `imencodeImage`: a stream is a validly decodable
JPEG of the model exactly when it carries the SOI/EOI framing around a
well-formed serialisation. -/
def jpegDecodeImage (l : List Nat) : Option Image :=
  match l with
  | a :: b :: h :: w :: c :: r :: g :: bb :: n :: rest =>
    if a = 255 ∧ b = 216 then
      match decTexts n rest with
      | some (ts, tail) =>
        if tail = [255, 217] then
          some { height := h, width := w, channels := c
                 background := (r, g, bb), texts := ts }
        else none
      | none => none
    else none
  | _ => none

/-- Method `CameraThread._get_no_signal_frame`: the placeholder image encoded as
JPEG bytes. -/
def noSignalFrame (lastError : Option String) : List Nat :=
  imencodeImage (noSignalImage lastError)

/-- One tick of the `generate_mjpeg` generator body: encode the current
frame (placeholder when the store is empty) and build the multipart chunk
`--frame\r\nContent-Type: image/jpeg\r\n\r\n<jpeg>\r\n`. -/
def mjpegTick (s : CameraThread) : List Nat × CameraThread :=
  match get_frame_jpeg s 85 with
  | (some j, s1) =>
    (strBytes "--frame\r\nContent-Type: image/jpeg\r\n\r\n"
       ++ j ++ strBytes "\r\n", s1)
  | (none, s1) =>
    (strBytes "--frame\r\nContent-Type: image/jpeg\r\n\r\n"
       ++ noSignalFrame s1.lastError ++ strBytes "\r\n", s1)

/-- Generator `CameraThread.generate_mjpeg`, observed for `fuel` pulls: while
`self._running`, each pull yields one multipart chunk and then sleeps 33 ms
(~30 fps); when `_running` is clear the generator terminates, yielding
nothing further. -/
def generate_mjpeg : Nat → CameraThread → List (List Nat × Nat)
  | 0, _ => []
  | fuel + 1, s =>
    if s.running then
      ((mjpegTick s).1, 33) :: generate_mjpeg fuel (mjpegTick s).2
    else []

/-- The module-level bindings of `config.py` that
`update_runtime_config` may rebind via `global`. -/
structure ConfigModule where
  CAMERA_URL_OVERRIDE : String
  VLM_URL : String
  TTS_VOICE : String
  deriving Repr, DecidableEq

/-- The module-level binding created in `camera.py` by
`from config import CAMERA_URL_OVERRIDE`, a snapshot taken at import time. -/
structure CameraModule where
  CAMERA_URL_OVERRIDE : String
  deriving Repr, DecidableEq

/-- The two module namespaces of the running process. -/
structure PyModules where
  config : ConfigModule
  camera : CameraModule
  deriving Repr, DecidableEq

/-- Importing `camera.py` copies the current value of
`config.CAMERA_URL_OVERRIDE` into `camera.py`'s own global namespace. -/
def importCameraModule (c : ConfigModule) : PyModules :=
  { config := c, camera := { CAMERA_URL_OVERRIDE := c.CAMERA_URL_OVERRIDE } }

/-- The updates dictionary accepted by `update_runtime_config`. -/
structure ConfigUpdates where
  cameraUrlOverride : Option String
  vlmUrl : Option String
  ttsVoice : Option String
  deriving Repr, DecidableEq

/-- Function `config.update_runtime_config`: `global CAMERA_URL_OVERRIDE, VLM_URL,
TTS_VOICE` rebinds names in `config.py`'s namespace only; the snapshot
binding in `camera.py`'s namespace is untouched by a `global` assignment in
another module. -/
def update_runtime_config (p : PyModules) (u : ConfigUpdates) : PyModules :=
  let c0 := p.config
  let c1 := match u.cameraUrlOverride with
    | some v => { c0 with CAMERA_URL_OVERRIDE := v }
    | none => c0
  let c2 := match u.vlmUrl with
    | some v => { c1 with VLM_URL := v }
    | none => c1
  let c3 := match u.ttsVoice with
    | some v => { c2 with TTS_VOICE := v }
    | none => c2
  { p with config := c3 }

/-- The configuration `_connect` actually reads: `CAMERA_IP`, `CAMERA_USER`
and `CAMERA_PASSWORD` together with the override URL binding held in
`camera.py`'s namespace. -/
def negotiatorConfig (p : PyModules) (ip user password : String) : Config :=
  { cameraIp := ip, cameraUser := user, cameraPassword := password
    cameraUrlOverride := p.camera.CAMERA_URL_OVERRIDE }

/-- An operation on the frame store.  Because both the publish in
`_capture_loop` and `get_frame` hold `_frame_lock` for the whole access,
every concurrent execution is equivalent to some sequence of these atomic
operations; quantifying over the sequence quantifies over all
publish/read interleavings. -/
inductive StoreOp
  | publish (d : List Nat)
  | read
  deriving Repr, DecidableEq

/-- Run a sequence of atomic frame-store operations (read results are
characterised separately by `get_frame`). -/
def runOps : List StoreOp → CameraThread → CameraThread
  | [], s => s
  | .publish d :: rest, s => runOps rest (publishFrame s d)
  | .read :: rest, s => runOps rest (get_frame s).2

/-- The data of the most recent publish in a chronological op sequence. -/
def lastPublished : List StoreOp → Option (List Nat)
  | [] => none
  | .publish d :: rest => some ((lastPublished rest).getD d)
  | .read :: rest => lastPublished rest

theorem get_frame_frame_eq (s : CameraThread) :
    (get_frame s).2.frame = s.frame := by
  cases h : s.frame <;> simp [get_frame, h]

theorem get_frame_nextId_le (s : CameraThread) :
    s.nextId ≤ (get_frame s).2.nextId := by
  cases h : s.frame <;> simp [get_frame, h]

theorem runOps_frame_spec (ops : List StoreOp) :
    ∀ s : CameraThread,
      (∀ o, s.frame = some o → o.oid < s.nextId) →
      ((runOps ops s).frame.map StoredFrame.data
          = (lastPublished ops).or (s.frame.map StoredFrame.data))
      ∧ (∀ o, (runOps ops s).frame = some o →
          o.oid < (runOps ops s).nextId) := by
  induction ops with
  | nil =>
    intro s hs
    exact ⟨by simp [runOps, lastPublished], hs⟩
  | cons op rest ih =>
    intro s hs
    cases op with
    | publish d =>
      have hpre : ∀ o, (publishFrame s d).frame = some o →
          o.oid < (publishFrame s d).nextId := by
        intro o ho
        simp only [publishFrame, Option.some.injEq] at ho
        subst ho
        simp [publishFrame]
      obtain ⟨h1, h2⟩ := ih (publishFrame s d) hpre
      refine ⟨?_, h2⟩
      rw [show runOps (StoreOp.publish d :: rest) s
            = runOps rest (publishFrame s d) from rfl, h1]
      simp only [publishFrame, lastPublished]
      cases hlp : lastPublished rest <;> simp [Option.or]
    | read =>
      have hpre : ∀ o, (get_frame s).2.frame = some o →
          o.oid < (get_frame s).2.nextId := by
        intro o ho
        rw [get_frame_frame_eq] at ho
        exact Nat.lt_of_lt_of_le (hs o ho) (get_frame_nextId_le s)
      obtain ⟨h1, h2⟩ := ih (get_frame s).2 hpre
      refine ⟨?_, h2⟩
      rw [show runOps (StoreOp.read :: rest) s
            = runOps rest (get_frame s).2 from rfl, h1,
        get_frame_frame_eq, lastPublished]

theorem decStr_encStr (s : String) (rest : List Nat) :
    decStr (encStr s ++ rest) = some (s, rest) := by
  have hlen : s.length = (s.data.map Char.toNat).length := by
    rw [List.length_map]
    rfl
  simp only [encStr, List.cons_append, decStr]
  rw [if_pos]
  · have htake : (s.data.map Char.toNat ++ rest).take s.length
        = s.data.map Char.toNat := List.take_left' hlen.symm
    have hdrop : (s.data.map Char.toNat ++ rest).drop s.length = rest :=
      List.drop_left' hlen.symm
    have h1 : ∀ c ∈ s.data, (Char.ofNat ∘ Char.toNat) c = id c :=
      fun c _ => Char.ofNat_toNat c
    have hmap : (s.data.map Char.toNat).map Char.ofNat = s.data := by
      rw [List.map_map, List.map_congr_left h1, List.map_id]
    rw [htake, hdrop, hmap]
  · rw [hlen]
    simp

theorem decTexts_encTexts (ts : List TextDraw) (rest : List Nat) :
    decTexts ts.length ((ts.map encText).flatten ++ rest) = some (ts, rest) := by
  induction ts with
  | nil => simp [decTexts]
  | cons t ts ih =>
    have hflat : ((t :: ts).map encText).flatten
        = encText t ++ (ts.map encText).flatten := by
      simp
    rw [hflat, List.length_cons]
    have hassoc : encText t ++ (ts.map encText).flatten ++ rest
        = encStr t.text
          ++ (t.color.1 :: t.color.2.1 :: t.color.2.2 :: t.scale10
              :: t.thickness :: ((ts.map encText).flatten ++ rest)) := by
      simp [encText]
    rw [hassoc]
    simp only [decTexts, decStr_encStr, ih]

theorem jpegDecode_imencode (img : Image) :
    jpegDecodeImage (imencodeImage img) = some img := by
  simp only [imencodeImage, jpegDecodeImage]
  rw [if_pos ⟨trivial, trivial⟩]
  rw [decTexts_encTexts img.texts [255, 217]]
  simp

/-- The Connected configuration of the loop: stop flag not raised, the
`_connected` flag set and an open capture handle held. -/
def connectedUp (s : CameraThread) : Prop :=
  s.running = true ∧ s.connected = true ∧ s.cam.isSome = true

/-- One read-failure/renegotiation cycle of `_capture_loop`: an iteration
whose read fails, followed by an iteration that renegotiates and reads. -/
def failRecover (cfg : Config) (w : CamWorld) (d : List Nat)
    (s : CameraThread) : CameraThread :=
  (tick cfg w (ReadOutcome.ok d) (tick cfg w ReadOutcome.fail s).1).1

/-- Iterated: `n` consecutive read-failure/renegotiation cycles. -/
def iterFailRecover (cfg : Config) (w : CamWorld) (d : List Nat) :
    Nat → CameraThread → CameraThread
  | 0, s => s
  | n + 1, s => iterFailRecover cfg w d n (failRecover cfg w d s)

theorem tick_read_fail (cfg : Config) (w : CamWorld) (s : CameraThread)
    (hrun : s.running = true) (hconn : s.connected = true)
    (hcam : s.cam.isSome = true) :
    tick cfg w ReadOutcome.fail s
      = ({ s with connected := false, cam := none }, Action.sleep 1000) := by
  obtain ⟨u, hu⟩ := Option.isSome_iff_exists.mp hcam
  simp [tick, hrun, hconn, hu, readStep]

theorem failRecover_connectedUp (cfg : Config) (w : CamWorld) (d : List Nat)
    (hlive : ((candidateUrls cfg).find? (liveUrl w)).isSome = true)
    (s : CameraThread) (h : connectedUp s) :
    connectedUp (failRecover cfg w d s) := by
  obtain ⟨hrun, hconn, hcam⟩ := h
  have h1 := tick_read_fail cfg w s hrun hconn hcam
  have hok : (connect w cfg).ok = true := by
    rw [(connect_spec w cfg).2.1]
    exact hlive
  have hcamc : (connect w cfg).cam.isSome = true := by
    rw [(connect_spec w cfg).1]
    exact hlive
  have hconn2 : (connect w cfg).connected = true := by
    rw [(connect_spec w cfg).2.2.1, hok]
  rw [failRecover, h1]
  simp only [tick, hrun, Bool.false_eq_true, if_false]
  simp [hok, readStep, publishFrame, applyConnect, connectedUp, hconn2, hcamc]

theorem iterFailRecover_connectedUp (cfg : Config) (w : CamWorld)
    (d : List Nat)
    (hlive : ((candidateUrls cfg).find? (liveUrl w)).isSome = true) :
    ∀ (n : Nat) (s : CameraThread), connectedUp s →
      connectedUp (iterFailRecover cfg w d n s)
  | 0, _, h => h
  | n + 1, s, h =>
    iterFailRecover_connectedUp cfg w d hlive n _
      (failRecover_connectedUp cfg w d hlive s h)

theorem generate_mjpeg_placeholder :
    ∀ (fuel : Nat) (s : CameraThread), s.running = true → s.frame = none →
      generate_mjpeg fuel s
        = List.replicate fuel
            (strBytes "--frame\r\nContent-Type: image/jpeg\r\n\r\n"
               ++ noSignalFrame s.lastError ++ strBytes "\r\n", 33)
  | 0, _, _, _ => rfl
  | fuel + 1, s, hrun, hf => by
    have htick : mjpegTick s
        = (strBytes "--frame\r\nContent-Type: image/jpeg\r\n\r\n"
             ++ noSignalFrame s.lastError ++ strBytes "\r\n", s) := by
      simp [mjpegTick, get_frame_jpeg, get_frame, hf]
    simp only [generate_mjpeg, hrun, if_true, htick, List.replicate]
    exact congrArg _ (generate_mjpeg_placeholder fuel s hrun hf)

/-- The environment in which no candidate URL opens at all. -/
def deadWorld : CamWorld :=
  { opens := fun _ => false, readsOk := fun _ => false }

/-- The environment in which every candidate URL opens and reads. -/
def liveWorld : CamWorld :=
  { opens := fun _ => true, readsOk := fun _ => true }

/-- A Connected loop state with a recorded earlier failure. -/
def sConnDemo : CameraThread :=
  { frame := none, nextId := 0, running := true, threads := 1
    cam := some "rtsp://cam/stream", connected := true
    lastError := some "previous failure" }

/-- A running state whose store holds a published frame. -/
def sFrameDemo : CameraThread :=
  { frame := some { oid := 0, data := [1, 2, 3] }, nextId := 1
    running := true, threads := 1, cam := some "u", connected := true
    lastError := none }

/-- An environment where the first RTSP candidate opens but fails its first
read, and the second RTSP candidate opens and reads. -/
def wDemo : CamWorld :=
  { opens := fun u => u == rtspUrl defaultConfig "/stream1"
      || u == rtspUrl defaultConfig "/stream2"
    readsOk := fun u => u == rtspUrl defaultConfig "/stream2" }

/-- C1: for every camera endpoint, `_connect` tries candidate URLs strictly
in the priority order — override URL first (when non-empty), then every
RTSP path in `RTSP_PATHS` order, then every HTTP path in `HTTP_PATHS`
order — and selects (returning success) exactly the first candidate that
both opens and delivers one successfully decoded frame; a candidate that
opens but whose first read fails is never selected and the negotiator moves
on past it. -/
theorem C1_connect_priority_order (w : CamWorld) (cfg : Config) :
    candidateUrls cfg
      = (if cfg.cameraUrlOverride ≠ "" then [cfg.cameraUrlOverride] else [])
        ++ RTSP_PATHS.map (rtspUrl cfg) ++ HTTP_PATHS.map (httpUrl cfg)
  ∧ (connect w cfg).cam = (candidateUrls cfg).find? (liveUrl w)
  ∧ (connect w cfg).ok = ((candidateUrls cfg).find? (liveUrl w)).isSome
  ∧ (∃ k, (connect w cfg).attempts = (candidateUrls cfg).take k)
  ∧ (∀ u ∈ (connect w cfg).attempts.dropLast, liveUrl w u = false)
  ∧ (∀ u, (connect w cfg).cam = some u →
      w.opens u = true ∧ w.readsOk u = true
        ∧ (connect w cfg).attempts.getLast? = some u)
  ∧ ((connect w cfg).cam = none →
      (connect w cfg).attempts = candidateUrls cfg) := by
  obtain ⟨hcam, hok, _, _, htake, hdl, hgl, hall⟩ := connect_spec w cfg
  refine ⟨rfl, hcam, hok, htake, hdl, ?_, hall⟩
  intro u hu
  have hfind : (candidateUrls cfg).find? (liveUrl w) = some u :=
    hcam.symm.trans hu
  have hlive : liveUrl w u = true := List.find?_some hfind
  rw [liveUrl, Bool.and_eq_true] at hlive
  exact ⟨hlive.1, hlive.2, hgl u hu⟩

/-- Witness for C1: in `wDemo` the first RTSP candidate opens but fails its
first read, and the negotiator selects the second RTSP candidate as the
last attempt. -/
theorem C1_connect_priority_order_witness :
    wDemo.opens (rtspUrl defaultConfig "/stream2") = true
  ∧ wDemo.readsOk (rtspUrl defaultConfig "/stream2") = true
  ∧ (connect wDemo defaultConfig).attempts.getLast?
      = some (rtspUrl defaultConfig "/stream2") :=
  (C1_connect_priority_order wDemo defaultConfig).2.2.2.2.2.1
    (rtspUrl defaultConfig "/stream2") (by decide)

/-- C2: over every interleaving of the lock-atomic publish and `get_frame`
operations, `get_frame` returns `None` before any frame has been published,
and after at least one publish it returns a frame whose data is exactly the
most recently published data (never torn) and whose object identity is
distinct from the internal slot's object — an independent copy, never a
reference into the slot. -/
theorem C2_frame_store (ops : List StoreOp) :
    (lastPublished ops = none →
      (get_frame (runOps ops initCameraThread)).1 = none)
  ∧ (∀ d, lastPublished ops = some d →
      ∃ o, (get_frame (runOps ops initCameraThread)).1 = some o
        ∧ o.data = d
        ∧ (∀ o', (runOps ops initCameraThread).frame = some o' →
            o.oid ≠ o'.oid)) := by
  obtain ⟨hdata, hoid⟩ :=
    runOps_frame_spec ops initCameraThread (by simp [initCameraThread])
  have hdata' : (runOps ops initCameraThread).frame.map StoredFrame.data
      = lastPublished ops := by
    rw [hdata]
    simp [initCameraThread, Option.or_none]
  constructor
  · intro h
    cases hf : (runOps ops initCameraThread).frame with
    | none => simp [get_frame, hf]
    | some o' =>
      rw [hf] at hdata'
      rw [h] at hdata'
      simp at hdata'
  · intro d h
    cases hf : (runOps ops initCameraThread).frame with
    | none =>
      rw [hf] at hdata'
      rw [h] at hdata'
      simp at hdata'
    | some o' =>
      rw [hf] at hdata'
      rw [h] at hdata'
      simp only [Option.map_some', Option.some.injEq] at hdata'
      refine ⟨{ oid := (runOps ops initCameraThread).nextId
                data := o'.data }, ?_, hdata', ?_⟩
      · simp [get_frame, hf]
      · intro o'' ho''
        cases ho''
        have := hoid o' hf
        show (runOps ops initCameraThread).nextId ≠ o'.oid
        omega

/-- Witness for C2 on the interleaving publish [1,2]; read; publish [9]. -/
theorem C2_frame_store_witness :
    ∃ o, (get_frame (runOps [StoreOp.publish [1, 2], StoreOp.read,
        StoreOp.publish [9]] initCameraThread)).1 = some o
      ∧ o.data = [9]
      ∧ (∀ o', (runOps [StoreOp.publish [1, 2], StoreOp.read,
            StoreOp.publish [9]] initCameraThread).frame = some o' →
          o.oid ≠ o'.oid) :=
  (C2_frame_store [StoreOp.publish [1, 2], StoreOp.read,
    StoreOp.publish [9]]).2 [9] rfl

/-- C3 (claim refuted by the code): `camera.py` binds
`CAMERA_URL_OVERRIDE` once, at import, via `from config import ...`;
`update_runtime_config`'s `global` assignment rebinds only `config.py`'s
namespace.  Evaluated at the failing input — start with no override, then
update `camera_url_override` to a new URL — the negotiator's next candidate
list still uses the stale empty override and never contains the new URL. -/
theorem C3_stale_override :
    (update_runtime_config
        (importCameraModule
          { CAMERA_URL_OVERRIDE := ""
            VLM_URL := "http://192.168.68.76:6000/v1/chat/completions"
            TTS_VOICE := "nova" })
        { cameraUrlOverride := some "rtsp://10.0.0.9:554/stream1"
          vlmUrl := none, ttsVoice := none }).config.CAMERA_URL_OVERRIDE
      = "rtsp://10.0.0.9:554/stream1"
  ∧ (update_runtime_config
        (importCameraModule
          { CAMERA_URL_OVERRIDE := ""
            VLM_URL := "http://192.168.68.76:6000/v1/chat/completions"
            TTS_VOICE := "nova" })
        { cameraUrlOverride := some "rtsp://10.0.0.9:554/stream1"
          vlmUrl := none, ttsVoice := none }).camera.CAMERA_URL_OVERRIDE
      = ""
  ∧ (negotiatorConfig
        (update_runtime_config
          (importCameraModule
            { CAMERA_URL_OVERRIDE := ""
              VLM_URL := "http://192.168.68.76:6000/v1/chat/completions"
              TTS_VOICE := "nova" })
          { cameraUrlOverride := some "rtsp://10.0.0.9:554/stream1"
            vlmUrl := none, ttsVoice := none })
        "192.168.68.55" "FeederGuard" "").cameraUrlOverride = ""
  ∧ "rtsp://10.0.0.9:554/stream1"
      ∉ candidateUrls (negotiatorConfig
          (update_runtime_config
            (importCameraModule
              { CAMERA_URL_OVERRIDE := ""
                VLM_URL := "http://192.168.68.76:6000/v1/chat/completions"
                TTS_VOICE := "nova" })
            { cameraUrlOverride := some "rtsp://10.0.0.9:554/stream1"
              vlmUrl := none, ttsVoice := none })
          "192.168.68.55" "FeederGuard" "") := by
  refine ⟨rfl, rfl, rfl, by decide⟩

/-- C4 counterexample: a full negotiation failure records the connect error
in `last_error`, but the next successful connection resets `last_error` to
`None` — the record of the most recent prior failure is erased, refuting
the claim that it persists across a later success. -/
theorem C4_lastError_cex :
    ((tick defaultConfig deadWorld ReadOutcome.fail
        (start initCameraThread)).1.lastError
      = some ("Cannot connect to camera at " ++ defaultConfig.cameraIp))
  ∧ ((tick defaultConfig liveWorld (ReadOutcome.ok [7])
        (tick defaultConfig deadWorld ReadOutcome.fail
          (start initCameraThread)).1).1.lastError
      = none) :=
  ⟨rfl, rfl⟩

/-- C4 amended: `last_error` records the most recent full negotiation
failure ("Cannot connect to camera at host"); a successful connection
clears it to `None` (erasing any prior failure record), and a read failure
leaves it unchanged. -/
theorem C4_lastError_semantics (w : CamWorld) (cfg : Config)
    (s : CameraThread) :
    ((connect w cfg).ok = false →
      (connect w cfg).lastError
        = some ("Cannot connect to camera at " ++ cfg.cameraIp))
  ∧ ((connect w cfg).ok = true → (connect w cfg).lastError = none)
  ∧ (s.running = true → s.connected = true → s.cam.isSome = true →
      (tick cfg w ReadOutcome.fail s).1.lastError = s.lastError) := by
  have hle := (connect_spec w cfg).2.2.2.1
  refine ⟨?_, ?_, ?_⟩
  · intro h
    rw [hle, h]
    simp
  · intro h
    rw [hle, h]
    simp
  · intro hrun hconn hcam
    rw [tick_read_fail cfg w s hrun hconn hcam]

/-- Witness for C4 amended, at the dead and fully live environments and at
a Connected state with a recorded earlier failure. -/
theorem C4_lastError_semantics_witness :
    ((connect deadWorld defaultConfig).lastError
      = some ("Cannot connect to camera at " ++ defaultConfig.cameraIp))
  ∧ ((connect liveWorld defaultConfig).lastError = none)
  ∧ ((tick defaultConfig deadWorld ReadOutcome.fail sConnDemo).1.lastError
      = some "previous failure") :=
  ⟨(C4_lastError_semantics deadWorld defaultConfig sConnDemo).1 (by decide),
   (C4_lastError_semantics liveWorld defaultConfig sConnDemo).2.1 (by decide),
   (C4_lastError_semantics deadWorld defaultConfig sConnDemo).2.2 rfl rfl rfl⟩

/-- C5: a read failure while Connected releases and clears the handle,
clears `_connected` and sleeps 1 second; a failed negotiation sleeps the
full 5-second reconnect interval; and the read-failure/renegotiation
recovery cycle returns to Connected after every successful negotiation,
repeatably for every number of cycles. -/
theorem C5_recovery_cycle (cfg : Config) (w : CamWorld) (d : List Nat)
    (hlive : ((candidateUrls cfg).find? (liveUrl w)).isSome = true) :
    reconnectInterval * 1000 = 5000
  ∧ (∀ s : CameraThread, s.running = true → s.connected = true →
      s.cam.isSome = true →
      tick cfg w ReadOutcome.fail s
        = ({ s with connected := false, cam := none }, Action.sleep 1000))
  ∧ (∀ (w' : CamWorld) (r : ReadOutcome) (s : CameraThread),
      s.running = true → s.connected = false → (connect w' cfg).ok = false →
      tick cfg w' r s
        = (applyConnect s (connect w' cfg),
           Action.sleep (reconnectInterval * 1000)))
  ∧ (∀ (n : Nat) (s : CameraThread), connectedUp s →
      connectedUp (iterFailRecover cfg w d n s)) := by
  refine ⟨rfl, tick_read_fail cfg w, ?_, iterFailRecover_connectedUp cfg w d hlive⟩
  intro w' r s hrun hconn hfail
  simp [tick, hrun, hconn, hfail]

/-- Witness for C5 at the default endpoint and fully live environment:
two full failure/recovery cycles end Connected. -/
theorem C5_recovery_cycle_witness :
    reconnectInterval * 1000 = 5000
  ∧ connectedUp (iterFailRecover defaultConfig liveWorld [3] 2 sConnDemo) := by
  have h := C5_recovery_cycle defaultConfig liveWorld [3] (by decide)
  exact ⟨h.1, h.2.2.2 2 sConnDemo ⟨rfl, rfl, rfl⟩⟩

/-- C6: while running, every MJPEG tick yields exactly the bytes
`--frame\r\nContent-Type: image/jpeg\r\n\r\n` followed by one JPEG payload
and a trailing `\r\n`, the payload computed fresh at emission time — the
current frame's JPEG encoding, or the placeholder when the store is empty —
and a never-published store yields placeholder chunks at the fixed 33 ms
cadence for as many pulls as observed, never terminating the stream. -/
theorem C6_mjpeg_chunks (s : CameraThread) (fuel : Nat)
    (hrun : s.running = true) :
    (∀ o, s.frame = some o →
      generate_mjpeg (fuel + 1) s
        = (strBytes "--frame\r\nContent-Type: image/jpeg\r\n\r\n"
             ++ imencodeFrame 85 o.data ++ strBytes "\r\n", 33)
          :: generate_mjpeg fuel (mjpegTick s).2)
  ∧ (s.frame = none →
      generate_mjpeg fuel s
        = List.replicate fuel
            (strBytes "--frame\r\nContent-Type: image/jpeg\r\n\r\n"
               ++ noSignalFrame s.lastError ++ strBytes "\r\n", 33)) := by
  constructor
  · intro o hf
    have htick : (mjpegTick s).1
        = strBytes "--frame\r\nContent-Type: image/jpeg\r\n\r\n"
            ++ imencodeFrame 85 o.data ++ strBytes "\r\n" := by
      simp [mjpegTick, get_frame_jpeg, get_frame, hf]
    simp only [generate_mjpeg, hrun, if_true, htick]
  · exact generate_mjpeg_placeholder fuel s hrun

/-- Witness for C6: one pull from a store holding a frame, and two pulls
from a never-published store right after `start`. -/
theorem C6_mjpeg_chunks_witness :
    (generate_mjpeg 1 sFrameDemo
      = [(strBytes "--frame\r\nContent-Type: image/jpeg\r\n\r\n"
           ++ imencodeFrame 85 [1, 2, 3] ++ strBytes "\r\n", 33)])
  ∧ (generate_mjpeg 2 (start initCameraThread)
      = List.replicate 2
          (strBytes "--frame\r\nContent-Type: image/jpeg\r\n\r\n"
             ++ noSignalFrame none ++ strBytes "\r\n", 33)) := by
  constructor
  · have h := (C6_mjpeg_chunks sFrameDemo 0 rfl).1
      { oid := 0, data := [1, 2, 3] } rfl
    simpa using h
  · exact (C6_mjpeg_chunks (start initCameraThread) 2 rfl).2 rfl

/-- C7: issuing the stop signal clears the running flag and releases the
transport handle on every path (including from Disconnected and from a
just-failed read, where the handle is already clear), and the capture loop
terminates within one iteration: any tick taken after the flag is cleared
exits immediately. -/
theorem C7_stop_terminates (cfg : Config) (w : CamWorld) (r : ReadOutcome)
    (s : CameraThread) :
    (stop s).running = false
  ∧ (stop s).cam = none
  ∧ (∀ s' : CameraThread, s'.running = false →
      tick cfg w r s' = (s', Action.exit))
  ∧ tick cfg w r (stop s) = (stop s, Action.exit) := by
  have hrun : (stop s).running = false := by
    cases h : s.cam <;> simp [stop, h]
  have hcam : (stop s).cam = none := by
    cases h : s.cam <;> simp [stop, h]
  have hexit : ∀ s' : CameraThread, s'.running = false →
      tick cfg w r s' = (s', Action.exit) := by
    intro s' h
    simp [tick, h]
  exact ⟨hrun, hcam, hexit, hexit _ hrun⟩

/-- Witness for C7: stopping a Connected state releases the handle and the
next tick exits; a never-started loop state also exits immediately. -/
theorem C7_stop_terminates_witness :
    (stop sConnDemo).running = false
  ∧ (stop sConnDemo).cam = none
  ∧ (tick defaultConfig liveWorld (ReadOutcome.ok [1]) initCameraThread
      = (initCameraThread, Action.exit))
  ∧ (tick defaultConfig liveWorld (ReadOutcome.ok [1]) (stop sConnDemo)
      = (stop sConnDemo, Action.exit)) := by
  have h := C7_stop_terminates defaultConfig liveWorld
    (ReadOutcome.ok [1]) sConnDemo
  exact ⟨h.1, h.2.1, h.2.2.1 initCameraThread rfl, h.2.2.2⟩

/-- C8: for every value of `last_error`, including `None`,
`_get_no_signal_frame` returns a non-empty byte stream that decodes back to
the synthesized image — a 640×480 3-channel dark-gray (40,40,40) image
captioned `"No Signal"`, carrying the error text as a secondary caption
exactly when `last_error` is present. -/
theorem C8_no_signal_placeholder (le : Option String) :
    noSignalFrame le ≠ []
  ∧ jpegDecodeImage (noSignalFrame le) = some (noSignalImage le)
  ∧ (noSignalImage le).height = 480
  ∧ (noSignalImage le).width = 640
  ∧ (noSignalImage le).channels = 3
  ∧ (noSignalImage le).background = (40, 40, 40)
  ∧ (noSignalImage le).texts.map TextDraw.text
      = "No Signal" :: (match le with | some e => [e] | none => []) := by
  refine ⟨?_, jpegDecode_imencode _, ?_, ?_, ?_, ?_, ?_⟩
  · simp [noSignalFrame, imencodeImage]
  all_goals cases le <;> simp [noSignalImage, putText]

/-- C9: when every candidate URL (override, all RTSP paths, all HTTP
paths) has been exhausted without an open-and-read success, `_connect`
returns failure, clears the connected flag, and records
`"Cannot connect to camera at <host>"` as `last_error`. -/
theorem C9_connect_exhaustion (w : CamWorld) (cfg : Config)
    (h : ∀ u ∈ candidateUrls cfg, liveUrl w u = false) :
    (connect w cfg).ok = false
  ∧ (connect w cfg).connected = false
  ∧ (connect w cfg).cam = none
  ∧ (connect w cfg).lastError
      = some ("Cannot connect to camera at " ++ cfg.cameraIp) := by
  have hfind : (candidateUrls cfg).find? (liveUrl w) = none :=
    List.find?_eq_none.mpr (fun x hx => by simp [h x hx])
  obtain ⟨hcam, hok, hcn, hle, _, _, _, _⟩ := connect_spec w cfg
  have hok' : (connect w cfg).ok = false := by
    rw [hok, hfind]
    rfl
  refine ⟨hok', by rw [hcn, hok'], by rw [hcam, hfind], ?_⟩
  rw [hle, hok']
  simp

/-- Witness for C9 at the default endpoint and the dead environment. -/
theorem C9_connect_exhaustion_witness :
    (connect deadWorld defaultConfig).ok = false
  ∧ (connect deadWorld defaultConfig).connected = false
  ∧ (connect deadWorld defaultConfig).cam = none
  ∧ (connect deadWorld defaultConfig).lastError
      = some ("Cannot connect to camera at " ++ defaultConfig.cameraIp) :=
  C9_connect_exhaustion deadWorld defaultConfig (by decide)

/-- C10: a `generate_mjpeg` generator created while the subsystem is not
running yields zero chunks and terminates immediately, for any number of
pulls; and calling `start` while already running is a no-op (in particular
it spawns no second capture thread). -/
theorem C10_not_running (s t : CameraThread) (n : Nat) :
    (s.running = false → generate_mjpeg n s = [])
  ∧ (t.running = true → start t = t) := by
  constructor
  · intro h
    cases n with
    | zero => rfl
    | succ m => simp [generate_mjpeg, h]
  · intro h
    simp [start, h]

/-- Witness for C10: the initial (never-started) state yields no chunks;
starting twice equals starting once. -/
theorem C10_not_running_witness :
    generate_mjpeg 3 initCameraThread = []
  ∧ start (start initCameraThread) = start initCameraThread := by
  have h := C10_not_running initCameraThread (start initCameraThread) 3
  exact ⟨h.1 rfl, h.2 rfl⟩

end FeederGuard
